import Mathlib

/-!
Verification development for the generated daemon firmware artifacts of the
Daemon repository.  The definitions below are a shallow embedding of the
generated C translation units found under the repository:

* `firmware-code/profiles/rc_car_pi_arduino/arduino/generated/daemon_runtime.c`
  (line protocol handler, rate limiter, watchdog, embedded manifest string);
* `firmware-code/profiles/rc_car_pi_arduino/arduino/generated/daemon_entry.c`
  (rc_car dispatch);
* `examples/firmware_manufacturers/skylift_drone/generated/daemon_entry.c`;
* `examples/firmware_manufacturers/linetrace_sensor/generated/daemon_entry.c`;
* `examples/firmware_manufacturers/gripworks_gripper/generated/daemon_entry.c`.

Machine integers: the runtime clock and state are C `uint32_t`; they are
modelled as `ℕ` with subtraction performed modulo `2 ^ 32` (`u32_sub`).
Parsed numeric argument values are modelled as `ℤ` (for C `int`) and `ℚ`
(for C `float`: every finite float is a rational, and the range bounds
`0.0`, `1.0`, `3.0`, `40.0`, `-180.0`, `180.0` occurring in the generated
code are exactly representable, so the C comparisons agree with the rational
ones).  The libc string-to-number conversions (`strtol` / `strtof` inside
`daemon_parse_int` / `daemon_parse_float`) are abstracted as an environment
`Env` of partial parsing functions; all theorems are stated for every such
environment.  C functions that are called for their side effects are
recorded in an explicit `Call` trace, and every line written to the serial
port is collected in a `List String` (one element per LF-terminated line
written by `daemon_serial_write`, which uses `puts`).
-/

set_option maxHeartbeats 1000000

namespace Daemon

/-- Return code `DAEMON_OK` (0) from `daemon_runtime.h`. -/
def DAEMON_OK : Int := 0

/-- Return code `DAEMON_ERR_BAD_TOKEN` (10) from `daemon_runtime.h`. -/
def DAEMON_ERR_BAD_TOKEN : Int := 10

/-- Return code `DAEMON_ERR_BAD_ARGS` (11) from `daemon_runtime.h`. -/
def DAEMON_ERR_BAD_ARGS : Int := 11

/-- Return code `DAEMON_ERR_RANGE` (12) from `daemon_runtime.h`. -/
def DAEMON_ERR_RANGE : Int := 12

/-- Return code `DAEMON_ERR_RATE_LIMIT` (13) from `daemon_runtime.h`. -/
def DAEMON_ERR_RATE_LIMIT : Int := 13

/-- Environment abstracting the libc-backed argument parsers of
`daemon_runtime.c` (`daemon_parse_int` wraps `strtol`, `daemon_parse_float`
wraps `strtof`); `none` models a `false` return (parse failure). -/
structure Env where
  daemon_parse_int : String → Option Int
  daemon_parse_float : String → Option ℚ

/-- Trace element: one call to a C function performed by a dispatch
function.  `daemon_runtime_stop_call` records a call to the runtime's
`daemon_runtime_stop` (which writes `OK` to the serial port); the remaining
constructors record calls to the user firmware functions forward-declared in
the generated `daemon_entry.c` files. -/
inductive Call where
  | daemon_runtime_stop_call : Call
  | daemon_cmd_fwd : ℚ → Call
  | daemon_cmd_bwd : ℚ → Call
  | daemon_cmd_strafe : String → ℚ → Call
  | daemon_cmd_turn : ℚ → Call
  | daemon_cmd_mecanum : String → Call
  | daemon_cmd_stop : Call
  | set_throttle : ℚ → Call
  | yaw_to : ℚ → Call
  | stop_motors : Call
  | calibrate : Int → Call
  | set_grip : String → Call
  | set_grip_force : ℚ → Call
  deriving DecidableEq

/-- Serial output produced by one traced call: `daemon_runtime_stop` writes
the single line `OK`; the user firmware functions in `motor_controller.c`
and the example `main.c` files perform no serial writes. -/
def callOut : Call → List String
  | Call.daemon_runtime_stop_call => ["OK"]
  | _ => []

/-- Serial output produced by a trace of calls, in order. -/
def callOuts (cs : List Call) : List String := (cs.map callOut).flatten

/-- Embedding of `daemon_entry_dispatch` from
`firmware-code/profiles/rc_car_pi_arduino/arduino/generated/daemon_entry.c`.
The C `argc` always equals the number of valid entries of `argv` at every
call site, so it is taken to be `argv.length`; a `NULL` token is `none`. -/
def daemon_entry_dispatch_rc_car (env : Env) (token : Option String)
    (argv : List String) : List Call × Int :=
  match token with
  | none => ([], DAEMON_ERR_BAD_TOKEN)
  | some tok =>
    if tok = "STOP" then ([Call.daemon_runtime_stop_call], DAEMON_OK) else
    if tok = "FWD" then
      (if argv.length ≠ 1 then ([], DAEMON_ERR_BAD_ARGS) else
       match env.daemon_parse_float (argv.getD 0 "") with
       | none => ([], DAEMON_ERR_BAD_ARGS)
       | some arg_0 =>
         if arg_0 < 0 then ([], DAEMON_ERR_RANGE) else
         if arg_0 > 1 then ([], DAEMON_ERR_RANGE) else
         ([Call.daemon_cmd_fwd arg_0], DAEMON_OK)) else
    if tok = "BWD" then
      (if argv.length ≠ 1 then ([], DAEMON_ERR_BAD_ARGS) else
       match env.daemon_parse_float (argv.getD 0 "") with
       | none => ([], DAEMON_ERR_BAD_ARGS)
       | some arg_0 =>
         if arg_0 < 0 then ([], DAEMON_ERR_RANGE) else
         if arg_0 > 1 then ([], DAEMON_ERR_RANGE) else
         ([Call.daemon_cmd_bwd arg_0], DAEMON_OK)) else
    if tok = "STRAFE" then
      (if argv.length ≠ 2 then ([], DAEMON_ERR_BAD_ARGS) else
       let arg_0 := argv.getD 0 ""
       match env.daemon_parse_float (argv.getD 1 "") with
       | none => ([], DAEMON_ERR_BAD_ARGS)
       | some arg_1 =>
         if arg_1 < 0 then ([], DAEMON_ERR_RANGE) else
         if arg_1 > 1 then ([], DAEMON_ERR_RANGE) else
         ([Call.daemon_cmd_strafe arg_0 arg_1], DAEMON_OK)) else
    if tok = "TURN" then
      (if argv.length ≠ 1 then ([], DAEMON_ERR_BAD_ARGS) else
       match env.daemon_parse_float (argv.getD 0 "") with
       | none => ([], DAEMON_ERR_BAD_ARGS)
       | some arg_0 =>
         if arg_0 < -180 then ([], DAEMON_ERR_RANGE) else
         if arg_0 > 180 then ([], DAEMON_ERR_RANGE) else
         ([Call.daemon_cmd_turn arg_0], DAEMON_OK)) else
    if tok = "MECANUM" then
      (if argv.length ≠ 1 then ([], DAEMON_ERR_BAD_ARGS) else
       let arg_0 := argv.getD 0 ""
       ([Call.daemon_cmd_mecanum arg_0], DAEMON_OK)) else
    if tok = "STOP" then
      (if argv.length ≠ 0 then ([], DAEMON_ERR_BAD_ARGS) else
       ([Call.daemon_cmd_stop], DAEMON_OK)) else
    ([], DAEMON_ERR_BAD_TOKEN)

/-- Embedding of `daemon_entry_dispatch` from
`examples/firmware_manufacturers/skylift_drone/generated/daemon_entry.c`. -/
def daemon_entry_dispatch_skylift (env : Env) (token : Option String)
    (argv : List String) : List Call × Int :=
  match token with
  | none => ([], DAEMON_ERR_BAD_TOKEN)
  | some tok =>
    if tok = "STOP" then ([Call.daemon_runtime_stop_call], DAEMON_OK) else
    if tok = "THROTTLE" then
      (if argv.length ≠ 1 then ([], DAEMON_ERR_BAD_ARGS) else
       match env.daemon_parse_float (argv.getD 0 "") with
       | none => ([], DAEMON_ERR_BAD_ARGS)
       | some arg_0 =>
         if arg_0 < 0 then ([], DAEMON_ERR_RANGE) else
         if arg_0 > 1 then ([], DAEMON_ERR_RANGE) else
         ([Call.set_throttle arg_0], DAEMON_OK)) else
    if tok = "YAW" then
      (if argv.length ≠ 1 then ([], DAEMON_ERR_BAD_ARGS) else
       match env.daemon_parse_float (argv.getD 0 "") with
       | none => ([], DAEMON_ERR_BAD_ARGS)
       | some arg_0 =>
         if arg_0 < -180 then ([], DAEMON_ERR_RANGE) else
         if arg_0 > 180 then ([], DAEMON_ERR_RANGE) else
         ([Call.yaw_to arg_0], DAEMON_OK)) else
    if tok = "STOP" then
      (if argv.length ≠ 0 then ([], DAEMON_ERR_BAD_ARGS) else
       ([Call.stop_motors], DAEMON_OK)) else
    ([], DAEMON_ERR_BAD_TOKEN)

/-- Embedding of `daemon_entry_dispatch` from
`examples/firmware_manufacturers/linetrace_sensor/generated/daemon_entry.c`.
The generated range check compares the C `int` against the double constants
`0.0` and `3.0`; the `int` to `double` conversion is exact, so the check is
the integer comparison below. -/
def daemon_entry_dispatch_linetrace (env : Env) (token : Option String)
    (argv : List String) : List Call × Int :=
  match token with
  | none => ([], DAEMON_ERR_BAD_TOKEN)
  | some tok =>
    if tok = "STOP" then ([Call.daemon_runtime_stop_call], DAEMON_OK) else
    if tok = "CALIBRATE" then
      (if argv.length ≠ 1 then ([], DAEMON_ERR_BAD_ARGS) else
       match env.daemon_parse_int (argv.getD 0 "") with
       | none => ([], DAEMON_ERR_BAD_ARGS)
       | some arg_0 =>
         if arg_0 < 0 then ([], DAEMON_ERR_RANGE) else
         if arg_0 > 3 then ([], DAEMON_ERR_RANGE) else
         ([Call.calibrate arg_0], DAEMON_OK)) else
    ([], DAEMON_ERR_BAD_TOKEN)

/-- Embedding of `daemon_entry_dispatch` from
`examples/firmware_manufacturers/gripworks_gripper/generated/daemon_entry.c`. -/
def daemon_entry_dispatch_gripworks (env : Env) (token : Option String)
    (argv : List String) : List Call × Int :=
  match token with
  | none => ([], DAEMON_ERR_BAD_TOKEN)
  | some tok =>
    if tok = "STOP" then ([Call.daemon_runtime_stop_call], DAEMON_OK) else
    if tok = "GRIP" then
      (if argv.length ≠ 1 then ([], DAEMON_ERR_BAD_ARGS) else
       let arg_0 := argv.getD 0 ""
       ([Call.set_grip arg_0], DAEMON_OK)) else
    if tok = "GRIP_FORCE" then
      (if argv.length ≠ 1 then ([], DAEMON_ERR_BAD_ARGS) else
       match env.daemon_parse_float (argv.getD 0 "") with
       | none => ([], DAEMON_ERR_BAD_ARGS)
       | some arg_0 =>
         if arg_0 < 0 then ([], DAEMON_ERR_RANGE) else
         if arg_0 > 40 then ([], DAEMON_ERR_RANGE) else
         ([Call.set_grip_force arg_0], DAEMON_OK)) else
    ([], DAEMON_ERR_BAD_TOKEN)

/-- Runtime constant `g_watchdog_ms` from the rc_car `daemon_runtime.c`
(line 8): `static uint32_t g_watchdog_ms = 1200;`. -/
def g_watchdog_ms : ℕ := 1200

/-- Runtime constant `g_min_cmd_interval_ms` from the rc_car
`daemon_runtime.c` (line 9): `static uint32_t g_min_cmd_interval_ms = 50;`. -/
def g_min_cmd_interval_ms : ℕ := 50

/-- Modulus of the C `uint32_t` arithmetic used by the runtime. -/
def U32 : ℕ := 2 ^ 32

/-- C `uint32_t` subtraction `a - b` (wrapping). -/
def u32_sub (a b : ℕ) : ℕ := (a % U32 + U32 - b % U32) % U32

/-- Embedding of `daemon_runtime_tick` from the rc_car `daemon_runtime.c`.
The state is the value of the file-scope variable `g_last_cmd_ms`; the
result is the list of serial lines written and the new state.  When the
watchdog fires, `daemon_runtime_stop()` writes `OK` and `g_last_cmd_ms` is
set to `now_ms`. -/
def daemon_runtime_tick (g_last_cmd_ms now_ms : ℕ) : List String × ℕ :=
  if 0 < g_last_cmd_ms ∧ g_watchdog_ms < u32_sub now_ms g_last_cmd_ms then
    (["OK"], now_ms)
  else ([], g_last_cmd_ms)

/-- Character-level `String.take` (the built-in uses byte positions; all
protocol text here is ASCII, where the two agree). -/
def strTake (s : String) (n : ℕ) : String := ⟨s.data.take n⟩

/-- Character-level `String.drop`. -/
def strDrop (s : String) (n : ℕ) : String := ⟨s.data.drop n⟩

/-- Splits a character list at every space, keeping empty pieces. -/
def splitSpaces (cs : List Char) : List (List Char) :=
  cs.foldr (fun c acc =>
    if c = ' ' then [] :: acc
    else match acc with
      | [] => [[c]]
      | w :: ws => (c :: w) :: ws) [[]]

/-- Embedding of the `strtok_r(_, " ", _)` loop of
`daemon_runtime_handle_line`: the pieces of the copied buffer
`mutable_line` (the line after the `"RUN "` prefix, truncated by `strncpy`
to 255 characters), splitting on runs of spaces with no empty pieces.  The
first piece is the dispatched token, the following pieces (at most 16 by
the `argc < 16` guard) are `argv`. -/
def run_pieces (l : String) : List String :=
  ((splitSpaces (strTake (strDrop l 4) 255).data).filter
    (fun w => w ≠ [])).map (fun w => ⟨w⟩)

/-- Fixed manifest text before the `commands` array (piece of the literal on
line 67 of the rc_car `daemon_runtime.c`). -/
def rc_manifest_head : String :=
  "\x7b\"daemon_version\":\"0.1\",\"device\":\x7b\"name\":\"arduino\",\"version\":\"0.1.0\",\"node_id\":\"arduino\"\x7d,\"commands\":["

/-- Fixed manifest text after the `commands` array (piece of the literal on
line 67 of the rc_car `daemon_runtime.c`). -/
def rc_manifest_tail : String :=
  "],\"telemetry\":\x7b\"keys\":[\x7b\"name\":\"uptime_ms\",\"type\":\"int\",\"unit\":\"ms\"\x7d,\x7b\"name\":\"last_token\",\"type\":\"string\"\x7d]\x7d,\"transport\":\x7b\"type\":\"serial-line-v1\"\x7d\x7d"

/-- Verbatim JSON of manifest command 0 (piece of the literal on line 67 of the rc_car `daemon_runtime.c`). -/
def rc_manifest_cmd_json0 : String :=
  "\x7b\"token\":\"FWD\",\"description\":\"Move forward\",\"args\":[\x7b\"name\":\"speed\",\"type\":\"float\",\"min\":0.0,\"max\":1.0,\"required\":true\x7d],\"safety\":\x7b\"rate_limit_hz\":20,\"watchdog_ms\":1200,\"clamp\":true\x7d,\"nlp\":\x7b\"synonyms\":[\"fwd\",\"move forward\"],\"examples\":[\"Move forward\"]\x7d\x7d"

/-- Verbatim JSON of manifest command 1 (piece of the literal on line 67 of the rc_car `daemon_runtime.c`). -/
def rc_manifest_cmd_json1 : String :=
  "\x7b\"token\":\"BWD\",\"description\":\"Move backward\",\"args\":[\x7b\"name\":\"speed\",\"type\":\"float\",\"min\":0.0,\"max\":1.0,\"required\":true\x7d],\"safety\":\x7b\"rate_limit_hz\":20,\"watchdog_ms\":1200,\"clamp\":true\x7d,\"nlp\":\x7b\"synonyms\":[\"bwd\",\"move backward\"],\"examples\":[\"Move backward\"]\x7d\x7d"

/-- Verbatim JSON of manifest command 2 (piece of the literal on line 67 of the rc_car `daemon_runtime.c`). -/
def rc_manifest_cmd_json2 : String :=
  "\x7b\"token\":\"STRAFE\",\"description\":\"Strafe left/right\",\"args\":[\x7b\"name\":\"dir\",\"type\":\"string\",\"min\":null,\"max\":null,\"required\":true\x7d,\x7b\"name\":\"speed\",\"type\":\"float\",\"min\":0.0,\"max\":1.0,\"required\":true\x7d],\"safety\":\x7b\"rate_limit_hz\":20,\"watchdog_ms\":1200,\"clamp\":true\x7d,\"nlp\":\x7b\"synonyms\":[\"strafe\",\"strafe left/right\"],\"examples\":[\"Strafe left/right\"]\x7d\x7d"

/-- Verbatim JSON of manifest command 3 (piece of the literal on line 67 of the rc_car `daemon_runtime.c`). -/
def rc_manifest_cmd_json3 : String :=
  "\x7b\"token\":\"TURN\",\"description\":\"Rotate in place by signed degrees\",\"args\":[\x7b\"name\":\"degrees\",\"type\":\"float\",\"min\":-180.0,\"max\":180.0,\"required\":true\x7d],\"safety\":\x7b\"rate_limit_hz\":20,\"watchdog_ms\":1200,\"clamp\":true\x7d,\"nlp\":\x7b\"synonyms\":[\"turn\",\"rotate in place by signed degrees\"],\"examples\":[\"Rotate in place by signed degrees\"]\x7d\x7d"

/-- Verbatim JSON of manifest command 4 (piece of the literal on line 67 of the rc_car `daemon_runtime.c`). -/
def rc_manifest_cmd_json4 : String :=
  "\x7b\"token\":\"MECANUM\",\"description\":\"Direct primitive command (F,B,L,R,Q,E,S)\",\"args\":[\x7b\"name\":\"cmd\",\"type\":\"string\",\"min\":null,\"max\":null,\"required\":true\x7d],\"safety\":\x7b\"rate_limit_hz\":30,\"watchdog_ms\":1200,\"clamp\":true\x7d,\"nlp\":\x7b\"synonyms\":[\"mecanum\",\"direct primitive command (f,b,l,r,q,e,s)\"],\"examples\":[\"Direct primitive command (F,B,L,R,Q,E,S)\"]\x7d\x7d"

/-- Verbatim JSON of manifest command 5 (piece of the literal on line 67 of the rc_car `daemon_runtime.c`). -/
def rc_manifest_cmd_json5 : String :=
  "\x7b\"token\":\"STOP\",\"description\":\"Stop all motors\",\"args\":[],\"safety\":\x7b\"rate_limit_hz\":30,\"watchdog_ms\":1200,\"clamp\":true\x7d,\"nlp\":\x7b\"synonyms\":[\"stop\",\"stop all motors\"],\"examples\":[\"Stop all motors\"]\x7d\x7d"

/-- Manifest JSON string embedded verbatim in the rc_car `daemon_runtime.c`
(line 67): the text written after the `MANIFEST ` prefix in response to
`READ_MANIFEST`.  The C literal is the concatenation, in order, of the
verbatim pieces above (head, the six command objects separated by commas,
tail). -/
def rc_manifest_json : String :=
  rc_manifest_head ++ rc_manifest_cmd_json0 ++ "," ++ rc_manifest_cmd_json1 ++
    "," ++ rc_manifest_cmd_json2 ++ "," ++ rc_manifest_cmd_json3 ++ "," ++
    rc_manifest_cmd_json4 ++ "," ++ rc_manifest_cmd_json5 ++ rc_manifest_tail

/-- Embedding of `daemon_runtime_handle_line` from the rc_car
`daemon_runtime.c`.  The state is the value of the file-scope
`g_last_cmd_ms`; `line == NULL` is `none`; the result collects every line
written by `daemon_serial_write` (including the `OK` written by
`daemon_runtime_stop` when the dispatch takes its built-in `STOP` branch)
together with the new state.  Note the constants: `g_min_cmd_interval_ms`
is positive, and the dispatch called is the rc_car one. -/
def daemon_runtime_handle_line (env : Env) (line : Option String)
    (now_ms g_last_cmd_ms : ℕ) : List String × ℕ :=
  match line with
  | none => (["ERR BAD_REQUEST empty_line"], g_last_cmd_ms)
  | some l =>
    if l = "HELLO" then (["OK"], g_last_cmd_ms) else
    if l = "READ_MANIFEST" then
      (["MANIFEST " ++ rc_manifest_json], g_last_cmd_ms) else
    if l = "STOP" then (["OK"], g_last_cmd_ms) else
    if strTake l 4 = "RUN " then
      (if 0 < g_min_cmd_interval_ms ∧ 0 < g_last_cmd_ms ∧
          u32_sub now_ms g_last_cmd_ms < g_min_cmd_interval_ms then
        (["ERR RATE_LIMIT too_fast"], g_last_cmd_ms)
      else
        let pieces := run_pieces l
        let token := pieces.head?
        let argv := pieces.tail.take 16
        let r := daemon_entry_dispatch_rc_car env token argv
        let pre := callOuts r.1
        if r.2 = DAEMON_OK then (pre ++ ["OK"], now_ms) else
        if r.2 = DAEMON_ERR_BAD_TOKEN then
          (pre ++ ["ERR BAD_TOKEN unknown"], g_last_cmd_ms) else
        if r.2 = DAEMON_ERR_BAD_ARGS then
          (pre ++ ["ERR BAD_ARGS invalid"], g_last_cmd_ms) else
        if r.2 = DAEMON_ERR_RANGE then
          (pre ++ ["ERR RANGE out_of_bounds"], g_last_cmd_ms) else
        (pre ++ ["ERR INTERNAL dispatch_failed"], g_last_cmd_ms))
    else (["ERR BAD_REQUEST unsupported"], g_last_cmd_ms)

/-- Argument record of a manifest `args[]` entry; `min`/`max` are `none`
when the JSON field is `null`. -/
structure ManifestArg where
  name : String
  type : String
  min : Option ℚ
  max : Option ℚ
  required : Bool
  deriving DecidableEq

/-- Safety record of a manifest command. -/
structure ManifestSafety where
  rate_limit_hz : ℕ
  watchdog_ms : ℕ
  clamp : Bool
  deriving DecidableEq

/-- NLP hints of a manifest command. -/
structure ManifestNlp where
  synonyms : List String
  examples : List String
  deriving DecidableEq

/-- One entry of the manifest `commands[]` array. -/
structure ManifestCommand where
  token : String
  description : String
  args : List ManifestArg
  safety : ManifestSafety
  nlp : ManifestNlp
  deriving DecidableEq

/-- ASCII lowercasing, character by character (`String.toLower`). -/
def lowerStr (s : String) : String := ⟨s.data.map Char.toLower⟩

/-- JSON rendering of a numeric `min`/`max` value.  Every range bound in
the embedded manifest is an integer rendered with one fractional digit
(`0.0`, `1.0`, `-180.0`, `180.0`), the shortest round-trip decimal. -/
def renderNum (q : ℚ) : String :=
  if q.den = 1 then toString q.num ++ ".0" else toString q.num ++ "/" ++ toString q.den

/-- JSON rendering of an optional numeric bound (`null` when absent). -/
def renderBound : Option ℚ → String
  | none => "null"
  | some q => renderNum q

/-- JSON rendering of a boolean. -/
def renderBool (b : Bool) : String := if b then "true" else "false"

/-- JSON rendering of a list of strings as a JSON array of strings. -/
def renderStrList (xs : List String) : String :=
  String.intercalate "," (xs.map (fun s => "\"" ++ s ++ "\""))

/-- JSON rendering of one manifest argument record. -/
def renderArg (a : ManifestArg) : String :=
  "\x7b\"name\":\"" ++ a.name ++ "\",\"type\":\"" ++ a.type ++ "\",\"min\":" ++
    renderBound a.min ++ ",\"max\":" ++ renderBound a.max ++
    ",\"required\":" ++ renderBool a.required ++ "\x7d"

/-- JSON rendering of one manifest command record. -/
def renderCommand (c : ManifestCommand) : String :=
  "\x7b\"token\":\"" ++ c.token ++ "\",\"description\":\"" ++ c.description ++
    "\",\"args\":[" ++ String.intercalate "," (c.args.map renderArg) ++
    "],\"safety\":\x7b\"rate_limit_hz\":" ++ toString c.safety.rate_limit_hz ++
    ",\"watchdog_ms\":" ++ toString c.safety.watchdog_ms ++
    ",\"clamp\":" ++ renderBool c.safety.clamp ++
    "\x7d,\"nlp\":\x7b\"synonyms\":[" ++ renderStrList c.nlp.synonyms ++
    "],\"examples\":[" ++ renderStrList c.nlp.examples ++ "]\x7d\x7d"

/-- Manifest record of the rc_car `FWD` command, transcribed from the
embedded manifest JSON (`rc_manifest_cmd_json0`). -/
def rc_cmd_fwd : ManifestCommand :=
  { token := "FWD", description := "Move forward",
    args := [{ name := "speed", type := "float", min := some 0, max := some 1,
               required := true }],
    safety := { rate_limit_hz := 20, watchdog_ms := 1200, clamp := true },
    nlp := { synonyms := ["fwd", "move forward"],
             examples := ["Move forward"] } }

/-- Manifest record of the rc_car `BWD` command (`rc_manifest_cmd_json1`). -/
def rc_cmd_bwd : ManifestCommand :=
  { token := "BWD", description := "Move backward",
    args := [{ name := "speed", type := "float", min := some 0, max := some 1,
               required := true }],
    safety := { rate_limit_hz := 20, watchdog_ms := 1200, clamp := true },
    nlp := { synonyms := ["bwd", "move backward"],
             examples := ["Move backward"] } }

/-- Manifest record of the rc_car `STRAFE` command (`rc_manifest_cmd_json2`). -/
def rc_cmd_strafe : ManifestCommand :=
  { token := "STRAFE", description := "Strafe left/right",
    args := [{ name := "dir", type := "string", min := none, max := none,
               required := true },
             { name := "speed", type := "float", min := some 0, max := some 1,
               required := true }],
    safety := { rate_limit_hz := 20, watchdog_ms := 1200, clamp := true },
    nlp := { synonyms := ["strafe", "strafe left/right"],
             examples := ["Strafe left/right"] } }

/-- Manifest record of the rc_car `TURN` command (`rc_manifest_cmd_json3`). -/
def rc_cmd_turn : ManifestCommand :=
  { token := "TURN", description := "Rotate in place by signed degrees",
    args := [{ name := "degrees", type := "float", min := some (-180),
               max := some 180, required := true }],
    safety := { rate_limit_hz := 20, watchdog_ms := 1200, clamp := true },
    nlp := { synonyms := ["turn", "rotate in place by signed degrees"],
             examples := ["Rotate in place by signed degrees"] } }

/-- Manifest record of the rc_car `MECANUM` command (`rc_manifest_cmd_json4`). -/
def rc_cmd_mecanum : ManifestCommand :=
  { token := "MECANUM", description := "Direct primitive command (F,B,L,R,Q,E,S)",
    args := [{ name := "cmd", type := "string", min := none, max := none,
               required := true }],
    safety := { rate_limit_hz := 30, watchdog_ms := 1200, clamp := true },
    nlp := { synonyms := ["mecanum", "direct primitive command (f,b,l,r,q,e,s)"],
             examples := ["Direct primitive command (F,B,L,R,Q,E,S)"] } }

/-- Manifest record of the rc_car `STOP` command (`rc_manifest_cmd_json5`). -/
def rc_cmd_stop : ManifestCommand :=
  { token := "STOP", description := "Stop all motors",
    args := [],
    safety := { rate_limit_hz := 30, watchdog_ms := 1200, clamp := true },
    nlp := { synonyms := ["stop", "stop all motors"],
             examples := ["Stop all motors"] } }

/-- The six commands of the rc_car catalog, transcribed from the manifest
JSON embedded in the rc_car `daemon_runtime.c` (source order). -/
def rc_manifest_commands : List ManifestCommand :=
  [rc_cmd_fwd, rc_cmd_bwd, rc_cmd_strafe, rc_cmd_turn, rc_cmd_mecanum,
   rc_cmd_stop]

/-- JSON rendering of a manifest `commands` array body (objects separated by
commas, catalog order). -/
def renderCommands : List ManifestCommand → String
  | [] => ""
  | [c] => renderCommand c
  | c :: cs => renderCommand c ++ "," ++ renderCommands cs

/-- Strings are equal when their character data are equal. -/
theorem str_data_eq {s t : String} (h : s.data = t.data) : s = t := by
  cases s; cases t; exact congrArg String.mk h

/-- Character data of an appended string. -/
theorem str_data_append (a b : String) : (a ++ b).data = a.data ++ b.data := by
  cases a; cases b; rfl

/-- Environment whose parsers always fail; used to instantiate theorems at
concrete inputs whose evaluation does not reach a parser. -/
def envNone : Env := ⟨fun _ => none, fun _ => none⟩

/-- Environment whose parsers return fixed integral values. -/
def envOne : Env := ⟨fun _ => some 1, fun _ => some 1⟩

/-- Environment whose parsers return the fixed out-of-range value 200. -/
def env200 : Env := ⟨fun _ => some 200, fun _ => some 200⟩

/-- Adding a small increment to the clock grows the wrapped difference. -/
theorem u32_sub_add_small {now s k : ℕ} (h : u32_sub now s + k < U32) :
    u32_sub (now + k) s = u32_sub now s + k := by
  simp only [u32_sub, U32] at *
  omega

/-- The rc_car dispatch returns one of the four codes `DAEMON_OK`,
`DAEMON_ERR_BAD_TOKEN`, `DAEMON_ERR_BAD_ARGS`, `DAEMON_ERR_RANGE` (in
particular never `DAEMON_ERR_RATE_LIMIT` or any other value). -/
theorem rc_dispatch_code (env : Env) (tok : Option String) (argv : List String) :
    (daemon_entry_dispatch_rc_car env tok argv).2 = DAEMON_OK ∨
    (daemon_entry_dispatch_rc_car env tok argv).2 = DAEMON_ERR_BAD_TOKEN ∨
    (daemon_entry_dispatch_rc_car env tok argv).2 = DAEMON_ERR_BAD_ARGS ∨
    (daemon_entry_dispatch_rc_car env tok argv).2 = DAEMON_ERR_RANGE := by
  unfold daemon_entry_dispatch_rc_car
  rcases tok with _ | tok
  · simp
  · repeat' split
    all_goals simp

/-- The rc_car dispatch writes to the serial port only in its built-in
`STOP` branch (where it calls `daemon_runtime_stop`, which writes `OK`). -/
theorem rc_dispatch_calls (env : Env) (tok : Option String) (argv : List String) :
    (tok = some "STOP" ∧
      daemon_entry_dispatch_rc_car env tok argv =
        ([Call.daemon_runtime_stop_call], DAEMON_OK)) ∨
    callOuts (daemon_entry_dispatch_rc_car env tok argv).1 = [] := by
  unfold daemon_entry_dispatch_rc_car
  rcases tok with _ | tok
  · simp [callOuts]
  · repeat' split
    all_goals simp_all [callOuts, callOut]

/-- C1 (counterexample): the rc_car catalog's maximum `rate_limit_hz` is 30,
so the claim requires `g_min_cmd_interval_ms = ⌈1000/30⌉ = 34`; the emitted
runtime constant is 50. -/
theorem c1_interval_counterexample :
    (rc_manifest_commands.map (fun c => c.safety.rate_limit_hz)).max? =
      some 30 ∧
    (1000 + 30 - 1) / 30 = 34 ∧
    g_min_cmd_interval_ms = 50 ∧ g_min_cmd_interval_ms ≠ 34 := by
  refine ⟨by decide, by decide, by decide, by decide⟩

/-- C1 (amended): for the rc_car catalog the emitted `g_watchdog_ms = 1200`
equals the minimum `watchdog_ms` across commands (floor 100), but
`g_min_cmd_interval_ms = 50 = ⌈1000/20⌉` is the interval of the minimum
`rate_hz` (20) across commands (floor 10), not `⌈1000/30⌉ = 34` derived
from the maximum (30). -/
theorem c1_runtime_constants_amended :
    (rc_manifest_commands.map (fun c => c.safety.watchdog_ms)).min? =
      some 1200 ∧
    g_watchdog_ms = max 100 1200 ∧
    (rc_manifest_commands.map (fun c => c.safety.rate_limit_hz)).min? =
      some 20 ∧
    g_min_cmd_interval_ms = max 10 ((1000 + 20 - 1) / 20) ∧
    (rc_manifest_commands.map (fun c => c.safety.rate_limit_hz)).max? =
      some 30 ∧
    g_min_cmd_interval_ms ≠ max 10 ((1000 + 30 - 1) / 30) := by
  refine ⟨by decide, by decide, by decide, by decide, by decide, by decide⟩

/-- C2 (counterexample): a `RUN` is accepted at t=100; the tick at t=1301
(past the 1200 ms watchdog) emits `OK` and records t=1301; with no further
input, the tick at t=2600 (a further full window later) emits `OK` again,
so ticks after expiry do re-emit `OK` without a new `RUN` being accepted. -/
theorem c2_watchdog_counterexample :
    daemon_runtime_handle_line envNone (some "RUN MECANUM F") 100 0 =
      (["OK"], 100) ∧
    daemon_runtime_tick 100 1301 = (["OK"], 1301) ∧
    daemon_runtime_tick 1301 2600 = (["OK"], 2600) := by
  refine ⟨by decide, by decide, by decide⟩

/-- C2 (amended): the first tick past expiry emits `OK` exactly once and
records its own time as the new reference; every tick within `watchdog_ms`
of the firing emits nothing; but a tick a further full window later (with
no `RUN` accepted in between) fires and emits `OK` again — the watchdog is
edge-triggered once per elapsed window, not once per `RUN`. -/
theorem c2_watchdog_amended (s now now' now'' : ℕ)
    (hs : 0 < s) (hn : 0 < now)
    (hfire : g_watchdog_ms < u32_sub now s)
    (hwithin : u32_sub now' now ≤ g_watchdog_ms)
    (hagain : g_watchdog_ms < u32_sub now'' now) :
    daemon_runtime_tick s now = (["OK"], now) ∧
    daemon_runtime_tick now now' = ([], now) ∧
    daemon_runtime_tick now now'' = (["OK"], now'') := by
  refine ⟨?_, ?_, ?_⟩
  · simp [daemon_runtime_tick, hs, hfire]
  · simp [daemon_runtime_tick]
    intro _
    omega
  · simp [daemon_runtime_tick, hn, hagain]

/-- C2 (witness): the amended watchdog behaviour at s=100, ticks at
t=1301, t=2000, t=2600. -/
theorem c2_watchdog_amended_witness :
    daemon_runtime_tick 100 1301 = (["OK"], 1301) ∧
    daemon_runtime_tick 1301 2000 = ([], 1301) ∧
    daemon_runtime_tick 1301 2600 = (["OK"], 2600) :=
  c2_watchdog_amended 100 1301 2000 2600 (by decide) (by decide)
    (by decide) (by decide) (by decide)

/-- C3 (counterexample): the skylift dispatch called with token `STOP` and
`argc = 1` (different from the declared argument count 0) returns
`DAEMON_OK` via the built-in branch, not `DAEMON_ERR_BAD_ARGS`. -/
theorem c3_arity_counterexample :
    daemon_entry_dispatch_skylift envNone (some "STOP") ["x"] =
      ([Call.daemon_runtime_stop_call], DAEMON_OK) ∧
    DAEMON_OK ≠ DAEMON_ERR_BAD_ARGS := by
  refine ⟨by decide, by decide⟩

/-- C3 (amended): for every command token other than `STOP`, in every
emitted dispatch, an `argc` different from the declared argument count
yields `DAEMON_ERR_BAD_ARGS`; for the token `STOP` the leading built-in
branch returns `DAEMON_OK` whatever `argc` is, so the arity check of the
user-declared `STOP` command is unreachable. -/
theorem c3_arity_amended (env : Env) (argv : List String) :
    (argv.length ≠ 1 →
      (daemon_entry_dispatch_skylift env (some "THROTTLE") argv).2 =
        DAEMON_ERR_BAD_ARGS ∧
      (daemon_entry_dispatch_skylift env (some "YAW") argv).2 =
        DAEMON_ERR_BAD_ARGS ∧
      (daemon_entry_dispatch_rc_car env (some "FWD") argv).2 =
        DAEMON_ERR_BAD_ARGS ∧
      (daemon_entry_dispatch_rc_car env (some "BWD") argv).2 =
        DAEMON_ERR_BAD_ARGS ∧
      (daemon_entry_dispatch_rc_car env (some "TURN") argv).2 =
        DAEMON_ERR_BAD_ARGS ∧
      (daemon_entry_dispatch_rc_car env (some "MECANUM") argv).2 =
        DAEMON_ERR_BAD_ARGS ∧
      (daemon_entry_dispatch_linetrace env (some "CALIBRATE") argv).2 =
        DAEMON_ERR_BAD_ARGS ∧
      (daemon_entry_dispatch_gripworks env (some "GRIP") argv).2 =
        DAEMON_ERR_BAD_ARGS ∧
      (daemon_entry_dispatch_gripworks env (some "GRIP_FORCE") argv).2 =
        DAEMON_ERR_BAD_ARGS) ∧
    (argv.length ≠ 2 →
      (daemon_entry_dispatch_rc_car env (some "STRAFE") argv).2 =
        DAEMON_ERR_BAD_ARGS) ∧
    (daemon_entry_dispatch_skylift env (some "STOP") argv).2 = DAEMON_OK ∧
    (daemon_entry_dispatch_rc_car env (some "STOP") argv).2 = DAEMON_OK := by
  refine ⟨fun h => ?_, fun h => ?_, ?_, ?_⟩
  · simp [daemon_entry_dispatch_skylift, daemon_entry_dispatch_rc_car,
      daemon_entry_dispatch_linetrace, daemon_entry_dispatch_gripworks, h]
  · simp [daemon_entry_dispatch_rc_car, h]
  · simp [daemon_entry_dispatch_skylift]
  · simp [daemon_entry_dispatch_rc_car]

/-- C3 (witness): the amended arity property at the argument vector
`["a", "b", "c"]` of length 3. -/
theorem c3_arity_amended_witness :
    (daemon_entry_dispatch_skylift envNone (some "THROTTLE") ["a", "b", "c"]).2 =
      DAEMON_ERR_BAD_ARGS ∧
    (daemon_entry_dispatch_rc_car envNone (some "STRAFE") ["a", "b", "c"]).2 =
      DAEMON_ERR_BAD_ARGS ∧
    (daemon_entry_dispatch_skylift envNone (some "STOP") ["a", "b", "c"]).2 =
      DAEMON_OK :=
  ⟨((c3_arity_amended envNone ["a", "b", "c"]).1 (by decide)).1,
   (c3_arity_amended envNone ["a", "b", "c"]).2.1 (by decide),
   (c3_arity_amended envNone ["a", "b", "c"]).2.2.1⟩

/-- C4: in every emitted dispatch, the token `STOP` is handled by a leading
special case that calls `daemon_runtime_stop()` and returns `DAEMON_OK`
whatever `argc`/`argv` are; the user-declared `STOP` function
(`daemon_cmd_stop` for rc_car, `stop_motors` for skylift) is never
called — its branch is unreachable behind the built-in one. -/
theorem c4_stop_builtin (env : Env) (argv : List String) :
    daemon_entry_dispatch_rc_car env (some "STOP") argv =
      ([Call.daemon_runtime_stop_call], DAEMON_OK) ∧
    daemon_entry_dispatch_skylift env (some "STOP") argv =
      ([Call.daemon_runtime_stop_call], DAEMON_OK) ∧
    daemon_entry_dispatch_linetrace env (some "STOP") argv =
      ([Call.daemon_runtime_stop_call], DAEMON_OK) ∧
    daemon_entry_dispatch_gripworks env (some "STOP") argv =
      ([Call.daemon_runtime_stop_call], DAEMON_OK) ∧
    Call.daemon_cmd_stop ∉
      (daemon_entry_dispatch_rc_car env (some "STOP") argv).1 ∧
    Call.stop_motors ∉
      (daemon_entry_dispatch_skylift env (some "STOP") argv).1 := by
  refine ⟨?_, ?_, ?_, ?_, ?_, ?_⟩ <;>
    simp [daemon_entry_dispatch_rc_car, daemon_entry_dispatch_skylift,
      daemon_entry_dispatch_linetrace, daemon_entry_dispatch_gripworks]

/-- C5 (counterexample): a `RUN` accepted at t=1000 followed by `STOP` at
t=1010 leaves `g_last_cmd_ms = 1000`; the same `RUN` line at t=1020 is then
rejected with `ERR RATE_LIMIT too_fast` from the STOPPED state but accepted
from the IDLE state, so STOPPED is not acceptance-equivalent to IDLE. -/
theorem c5_stopped_not_idle_counterexample :
    daemon_runtime_handle_line envNone (some "RUN MECANUM F") 1000 0 =
      (["OK"], 1000) ∧
    daemon_runtime_handle_line envNone (some "STOP") 1010 1000 =
      (["OK"], 1000) ∧
    daemon_runtime_handle_line envNone (some "RUN MECANUM F") 1020 1000 =
      (["ERR RATE_LIMIT too_fast"], 1000) ∧
    daemon_runtime_handle_line envNone (some "RUN MECANUM F") 1020 0 =
      (["OK"], 1020) := by
  refine ⟨by decide, by decide, by decide, by decide⟩

/-- C5 (amended): entering STOPPED emits one `OK` — but `STOP` leaves
`g_last_cmd_ms` unchanged and a watchdog firing sets it to the firing time,
so the acceptance decision taken from STOPPED is that of an ACTIVE state
with the retained `g_last_cmd_ms`, not that of IDLE (where
`g_last_cmd_ms = 0` disables the rate limiter). -/
theorem c5_stopped_amended (env : Env) (now s : ℕ) :
    daemon_runtime_handle_line env (some "STOP") now s = (["OK"], s) ∧
    (0 < s → g_watchdog_ms < u32_sub now s →
      daemon_runtime_tick s now = (["OK"], now)) := by
  constructor
  · simp [daemon_runtime_handle_line]
  · intro hs hf
    simp [daemon_runtime_tick, hs, hf]

/-- C5 (witness): `STOP` at t=1010 with `g_last_cmd_ms = 1000`, and a
watchdog firing at t=2300 from `g_last_cmd_ms = 1000`. -/
theorem c5_stopped_amended_witness :
    daemon_runtime_handle_line envNone (some "STOP") 1010 1000 =
      (["OK"], 1000) ∧
    daemon_runtime_tick 1000 2300 = (["OK"], 2300) :=
  ⟨(c5_stopped_amended envNone 1010 1000).1,
   (c5_stopped_amended envNone 2300 1000).2 (by decide) (by decide)⟩

/-- C6 (counterexample): the line `RUN NOPE` is rejected with
`ERR RATE_LIMIT too_fast` at t=1020 (state 1000), but resubmitted at
t = 1020 + 50 it yields `ERR BAD_TOKEN unknown`, not the `OK` response the
claim promises. -/
theorem c6_monotonicity_counterexample :
    daemon_runtime_handle_line envNone (some "RUN NOPE") 1020 1000 =
      (["ERR RATE_LIMIT too_fast"], 1000) ∧
    daemon_runtime_handle_line envNone (some "RUN NOPE") 1070 1000 =
      (["ERR BAD_TOKEN unknown"], 1000) ∧
    (["ERR BAD_TOKEN unknown"] : List String) ≠ ["OK"] := by
  refine ⟨by decide, by decide, by decide⟩

/-- C6 (amended): a `RUN` line received while
`u32_sub now_ms g_last_cmd_ms < min_cmd_interval_ms` is rejected with
exactly `ERR RATE_LIMIT too_fast` and does not advance state; the same line
resubmitted at `t + min_cmd_interval_ms` from identical prior state is no
longer rate-limited, and it yields the `OK` response (advancing state)
whenever its dispatch returns `DAEMON_OK` — rather than unconditionally. -/
theorem c6_rate_limit_amended (env : Env) (l : String) (now s : ℕ)
    (hrun : strTake l 4 = "RUN ")
    (hs : 0 < s)
    (hfast : u32_sub now s < g_min_cmd_interval_ms) :
    daemon_runtime_handle_line env (some l) now s =
      (["ERR RATE_LIMIT too_fast"], s) ∧
    ¬ u32_sub (now + g_min_cmd_interval_ms) s < g_min_cmd_interval_ms ∧
    ((daemon_entry_dispatch_rc_car env (run_pieces l).head?
        ((run_pieces l).tail.take 16)).2 = DAEMON_OK →
      daemon_runtime_handle_line env (some l) (now + g_min_cmd_interval_ms) s =
        (callOuts (daemon_entry_dispatch_rc_car env (run_pieces l).head?
            ((run_pieces l).tail.take 16)).1 ++ ["OK"],
          now + g_min_cmd_interval_ms)) := by
  have h1 : l ≠ "HELLO" := fun h => by subst h; exact absurd hrun (by decide)
  have h2 : l ≠ "READ_MANIFEST" := fun h => by
    subst h; exact absurd hrun (by decide)
  have h3 : l ≠ "STOP" := fun h => by subst h; exact absurd hrun (by decide)
  have hgrow : u32_sub (now + g_min_cmd_interval_ms) s =
      u32_sub now s + g_min_cmd_interval_ms := by
    apply u32_sub_add_small
    have : g_min_cmd_interval_ms = 50 := rfl
    have : U32 = 2 ^ 32 := rfl
    omega
  refine ⟨?_, ?_, fun hok => ?_⟩
  · have hfast50 : u32_sub now s < 50 := hfast
    simp [daemon_runtime_handle_line, h1, h2, h3, hrun, hs, hfast50,
      g_min_cmd_interval_ms]
  · omega
  · simp [daemon_runtime_handle_line, h1, h2, h3, hrun, hgrow, hok]

/-- C6 (witness): `RUN MECANUM F` rejected at t=1020 with state 1000 and
accepted at t=1070. -/
theorem c6_rate_limit_amended_witness :
    daemon_runtime_handle_line envNone (some "RUN MECANUM F") 1020 1000 =
      (["ERR RATE_LIMIT too_fast"], 1000) ∧
    daemon_runtime_handle_line envNone (some "RUN MECANUM F") 1070 1000 =
      (["OK"], 1070) := by
  have h := c6_rate_limit_amended envNone "RUN MECANUM F" 1020 1000
    (by decide) (by decide) (by decide)
  refine ⟨h.1, ?_⟩
  have h3 := h.2.2 (by decide)
  simpa [callOuts, callOut] using h3

/-- C7: for every numeric argument carrying a declared range in the rc_car
and linetrace dispatches, the emitted pair of comparisons returns
`DAEMON_ERR_RANGE` for every parsed value strictly below `lo` or strictly
above `hi`, and every value with `lo ≤ v ≤ hi` proceeds to the typed
call-through returning `DAEMON_OK`. -/
theorem c7_range_soundness (env : Env) (s0 s1 : String) (v : ℚ) (n : ℤ) :
    (env.daemon_parse_float s0 = some v →
      daemon_entry_dispatch_rc_car env (some "FWD") [s0] =
        if v < 0 ∨ 1 < v then ([], DAEMON_ERR_RANGE)
        else ([Call.daemon_cmd_fwd v], DAEMON_OK)) ∧
    (env.daemon_parse_float s0 = some v →
      daemon_entry_dispatch_rc_car env (some "BWD") [s0] =
        if v < 0 ∨ 1 < v then ([], DAEMON_ERR_RANGE)
        else ([Call.daemon_cmd_bwd v], DAEMON_OK)) ∧
    (env.daemon_parse_float s1 = some v →
      daemon_entry_dispatch_rc_car env (some "STRAFE") [s0, s1] =
        if v < 0 ∨ 1 < v then ([], DAEMON_ERR_RANGE)
        else ([Call.daemon_cmd_strafe s0 v], DAEMON_OK)) ∧
    (env.daemon_parse_float s0 = some v →
      daemon_entry_dispatch_rc_car env (some "TURN") [s0] =
        if v < -180 ∨ 180 < v then ([], DAEMON_ERR_RANGE)
        else ([Call.daemon_cmd_turn v], DAEMON_OK)) ∧
    (env.daemon_parse_int s0 = some n →
      daemon_entry_dispatch_linetrace env (some "CALIBRATE") [s0] =
        if n < 0 ∨ 3 < n then ([], DAEMON_ERR_RANGE)
        else ([Call.calibrate n], DAEMON_OK)) := by
  refine ⟨fun hp => ?_, fun hp => ?_, fun hp => ?_, fun hp => ?_, fun hp => ?_⟩ <;>
    · simp [daemon_entry_dispatch_rc_car, daemon_entry_dispatch_linetrace, hp]
      split_ifs <;> first | rfl | tauto

/-- C7 (witness): an in-range parse (value 1) is accepted by `FWD` and an
out-of-range parse (value 200) is rejected by `FWD` and `CALIBRATE`. -/
theorem c7_range_soundness_witness :
    daemon_entry_dispatch_rc_car envOne (some "FWD") ["x"] =
      ([Call.daemon_cmd_fwd 1], DAEMON_OK) ∧
    daemon_entry_dispatch_rc_car env200 (some "FWD") ["x"] =
      ([], DAEMON_ERR_RANGE) ∧
    daemon_entry_dispatch_linetrace env200 (some "CALIBRATE") ["x"] =
      ([], DAEMON_ERR_RANGE) := by
  refine ⟨?_, ?_, ?_⟩
  · have h := (c7_range_soundness envOne "x" "y" 1 1).1 rfl
    rw [h, if_neg (by norm_num)]
  · have h := (c7_range_soundness env200 "x" "y" 200 200).1 rfl
    rw [h, if_pos (by norm_num)]
  · have h := (c7_range_soundness env200 "x" "y" 200 200).2.2.2.2 rfl
    rw [h, if_pos (by norm_num)]

/-- C8 (counterexample): the line `RUN STOP` produces two LF-terminated
responses, not exactly one: the dispatch's built-in `STOP` branch calls
`daemon_runtime_stop()` (which writes `OK`) and the handler then writes the
protocol `OK` itself. -/
theorem c8_two_responses_counterexample :
    daemon_runtime_handle_line envNone (some "RUN STOP") 5 0 =
      (["OK", "OK"], 5) ∧
    (["OK", "OK"] : List String).length ≠ 1 := by
  refine ⟨by decide, by decide⟩

/-- C8 (amended): every input line yields exactly one response determined
by the protocol table (`NULL` → `ERR BAD_REQUEST empty_line`; `HELLO` →
`OK`; `READ_MANIFEST` → `MANIFEST <json>`; `STOP` → `OK`; other non-`RUN `
lines → `ERR BAD_REQUEST unsupported`; `RUN ` lines → `OK` or one of the
listed errors), except that a non-rate-limited `RUN` line whose dispatched
token is `STOP` emits `OK` twice; `ERR INTERNAL dispatch_failed` is never
emitted because the dispatch only returns the four codes OK, BAD_TOKEN,
BAD_ARGS, RANGE. -/
theorem c8_protocol_amended (env : Env) (line : Option String) (now s : ℕ) :
    (line = none →
      (daemon_runtime_handle_line env line now s).1 =
        ["ERR BAD_REQUEST empty_line"]) ∧
    (∀ l, line = some l →
      (l = "HELLO" →
        (daemon_runtime_handle_line env line now s).1 = ["OK"]) ∧
      (l = "READ_MANIFEST" →
        (daemon_runtime_handle_line env line now s).1 =
          ["MANIFEST " ++ rc_manifest_json]) ∧
      (l = "STOP" →
        (daemon_runtime_handle_line env line now s).1 = ["OK"]) ∧
      (l ≠ "HELLO" → l ≠ "READ_MANIFEST" → l ≠ "STOP" →
        strTake l 4 ≠ "RUN " →
        (daemon_runtime_handle_line env line now s).1 =
          ["ERR BAD_REQUEST unsupported"]) ∧
      (l ≠ "HELLO" → l ≠ "READ_MANIFEST" → l ≠ "STOP" →
        strTake l 4 = "RUN " →
        ((daemon_runtime_handle_line env line now s).1 =
            ["ERR RATE_LIMIT too_fast"] ∨
         (daemon_runtime_handle_line env line now s).1 = ["OK"] ∨
         (daemon_runtime_handle_line env line now s).1 =
            ["ERR BAD_TOKEN unknown"] ∨
         (daemon_runtime_handle_line env line now s).1 =
            ["ERR BAD_ARGS invalid"] ∨
         (daemon_runtime_handle_line env line now s).1 =
            ["ERR RANGE out_of_bounds"] ∨
         ((daemon_runtime_handle_line env line now s).1 = ["OK", "OK"] ∧
          (run_pieces l).head? = some "STOP")) ∧
        (daemon_runtime_handle_line env line now s).1 ≠
          ["ERR INTERNAL dispatch_failed"])) := by
  constructor
  · rintro rfl
    simp [daemon_runtime_handle_line]
  · rintro l rfl
    refine ⟨?_, ?_, ?_, ?_, ?_⟩
    · rintro rfl; simp [daemon_runtime_handle_line]
    · rintro rfl; simp [daemon_runtime_handle_line]
    · rintro rfl; simp [daemon_runtime_handle_line]
    · intro h1 h2 h3 h4
      simp [daemon_runtime_handle_line, h1, h2, h3, h4]
    · intro h1 h2 h3 h4
      by_cases hrate : 0 < g_min_cmd_interval_ms ∧ 0 < s ∧
          u32_sub now s < g_min_cmd_interval_ms
      · constructor
        · left
          simp [daemon_runtime_handle_line, h1, h2, h3, h4, hrate]
        · simp [daemon_runtime_handle_line, h1, h2, h3, h4, hrate]
      · rcases rc_dispatch_calls env (run_pieces l).head?
            ((run_pieces l).tail.take 16) with ⟨htok, heq⟩ | hout
        · constructor
          · right; right; right; right; right
            constructor
            · simp [daemon_runtime_handle_line, h1, h2, h3, h4, hrate, heq,
                callOuts, callOut]
            · exact htok
          · simp [daemon_runtime_handle_line, h1, h2, h3, h4, hrate, heq,
              callOuts, callOut]
        · rcases rc_dispatch_code env (run_pieces l).head?
              ((run_pieces l).tail.take 16) with hc | hc | hc | hc
          · constructor
            · right; left
              simp [daemon_runtime_handle_line, h1, h2, h3, h4, hrate, hc,
                hout]
            · simp [daemon_runtime_handle_line, h1, h2, h3, h4, hrate, hc,
                hout]
          · constructor
            · right; right; left
              simp [daemon_runtime_handle_line, h1, h2, h3, h4, hrate, hc,
                hout, DAEMON_OK, DAEMON_ERR_BAD_TOKEN]
            · simp [daemon_runtime_handle_line, h1, h2, h3, h4, hrate, hc,
                hout, DAEMON_OK, DAEMON_ERR_BAD_TOKEN]
          · constructor
            · right; right; right; left
              simp [daemon_runtime_handle_line, h1, h2, h3, h4, hrate, hc,
                hout, DAEMON_OK, DAEMON_ERR_BAD_TOKEN, DAEMON_ERR_BAD_ARGS]
            · simp [daemon_runtime_handle_line, h1, h2, h3, h4, hrate, hc,
                hout, DAEMON_OK, DAEMON_ERR_BAD_TOKEN, DAEMON_ERR_BAD_ARGS]
          · constructor
            · right; right; right; right; left
              simp [daemon_runtime_handle_line, h1, h2, h3, h4, hrate, hc,
                hout, DAEMON_OK, DAEMON_ERR_BAD_TOKEN, DAEMON_ERR_BAD_ARGS,
                DAEMON_ERR_RANGE]
            · simp [daemon_runtime_handle_line, h1, h2, h3, h4, hrate, hc,
                hout, DAEMON_OK, DAEMON_ERR_BAD_TOKEN, DAEMON_ERR_BAD_ARGS,
                DAEMON_ERR_RANGE]

/-- C8 (witness): the protocol table at the concrete lines `HELLO`,
`PING` and `RUN NOPE`. -/
theorem c8_protocol_amended_witness :
    (daemon_runtime_handle_line envNone (some "HELLO") 0 0).1 = ["OK"] ∧
    (daemon_runtime_handle_line envNone (some "PING") 0 0).1 =
      ["ERR BAD_REQUEST unsupported"] ∧
    (daemon_runtime_handle_line envNone (some "RUN NOPE") 0 0).1 ≠
      ["ERR INTERNAL dispatch_failed"] :=
  ⟨((c8_protocol_amended envNone (some "HELLO") 0 0).2 "HELLO" rfl).1 rfl,
   ((c8_protocol_amended envNone (some "PING") 0 0).2 "PING" rfl).2.2.2.1
     (by decide) (by decide) (by decide) (by decide),
   (((c8_protocol_amended envNone (some "RUN NOPE") 0 0).2 "RUN NOPE"
       rfl).2.2.2.2 (by decide) (by decide) (by decide) (by decide)).2⟩

/-- C10: whenever `daemon_runtime_handle_line` emits a response beginning
with `ERR`, the state variable `g_last_cmd_ms` is unchanged; it changes
only when a `RUN` line is accepted (response ending in `OK`), and then to
`now_ms`; and `daemon_runtime_tick` changes it only when the watchdog
fires (emitting `OK` and recording `now_ms`). -/
theorem c10_state_only_on_acceptance (env : Env) (line : Option String)
    (now s : ℕ) :
    ((∃ e ∈ (daemon_runtime_handle_line env line now s).1,
        strTake e 3 = "ERR") →
      (daemon_runtime_handle_line env line now s).2 = s) ∧
    ((daemon_runtime_handle_line env line now s).2 ≠ s →
      (daemon_runtime_handle_line env line now s).2 = now ∧
      (daemon_runtime_handle_line env line now s).1.getLast? = some "OK" ∧
      ∃ l, line = some l ∧ strTake l 4 = "RUN ") ∧
    ((daemon_runtime_tick s now).2 ≠ s →
      daemon_runtime_tick s now = (["OK"], now) ∧ 0 < s ∧
      g_watchdog_ms < u32_sub now s) := by
  refine ⟨?_, ?_, ?_⟩
  · rcases line with _ | l
    · simp [daemon_runtime_handle_line]
    · by_cases h1 : l = "HELLO"
      · simp [daemon_runtime_handle_line, h1]
      by_cases h2 : l = "READ_MANIFEST"
      · simp [daemon_runtime_handle_line, h1, h2]
      by_cases h3 : l = "STOP"
      · simp [daemon_runtime_handle_line, h1, h2, h3]
      by_cases h4 : strTake l 4 = "RUN "
      · by_cases hrate : 0 < g_min_cmd_interval_ms ∧ 0 < s ∧
            u32_sub now s < g_min_cmd_interval_ms
        · simp [daemon_runtime_handle_line, h1, h2, h3, h4, hrate]
        · rcases rc_dispatch_calls env (run_pieces l).head?
              ((run_pieces l).tail.take 16) with ⟨htok, heq⟩ | hout
          · intro hex
            rcases hex with ⟨e, he, herr⟩
            simp [daemon_runtime_handle_line, h1, h2, h3, h4, hrate, heq,
              callOuts, callOut] at he
            subst he
            exact absurd herr (by decide)
          · rcases rc_dispatch_code env (run_pieces l).head?
                ((run_pieces l).tail.take 16) with hc | hc | hc | hc
            · intro hex
              rcases hex with ⟨e, he, herr⟩
              simp [daemon_runtime_handle_line, h1, h2, h3, h4, hrate, hc,
                hout] at he
              subst he
              exact absurd herr (by decide)
            all_goals
              simp [daemon_runtime_handle_line, h1, h2, h3, h4, hrate, hc,
                hout, DAEMON_OK, DAEMON_ERR_BAD_TOKEN, DAEMON_ERR_BAD_ARGS,
                DAEMON_ERR_RANGE]
      · simp [daemon_runtime_handle_line, h1, h2, h3, h4]
  · rcases line with _ | l
    · simp [daemon_runtime_handle_line]
    · by_cases h1 : l = "HELLO"
      · simp [daemon_runtime_handle_line, h1]
      by_cases h2 : l = "READ_MANIFEST"
      · simp [daemon_runtime_handle_line, h1, h2]
      by_cases h3 : l = "STOP"
      · simp [daemon_runtime_handle_line, h1, h2, h3]
      by_cases h4 : strTake l 4 = "RUN "
      · by_cases hrate : 0 < g_min_cmd_interval_ms ∧ 0 < s ∧
            u32_sub now s < g_min_cmd_interval_ms
        · simp [daemon_runtime_handle_line, h1, h2, h3, h4, hrate]
        · rcases rc_dispatch_calls env (run_pieces l).head?
              ((run_pieces l).tail.take 16) with ⟨htok, heq⟩ | hout
          · intro hne
            refine ⟨?_, ?_, l, rfl, h4⟩ <;>
              simp [daemon_runtime_handle_line, h1, h2, h3, h4, hrate, heq,
                callOuts, callOut]
          · rcases rc_dispatch_code env (run_pieces l).head?
                ((run_pieces l).tail.take 16) with hc | hc | hc | hc
            · intro hne
              refine ⟨?_, ?_, l, rfl, h4⟩ <;>
                simp [daemon_runtime_handle_line, h1, h2, h3, h4, hrate, hc,
                  hout]
            all_goals
              simp [daemon_runtime_handle_line, h1, h2, h3, h4, hrate, hc,
                hout, DAEMON_OK, DAEMON_ERR_BAD_TOKEN, DAEMON_ERR_BAD_ARGS,
                DAEMON_ERR_RANGE]
      · simp [daemon_runtime_handle_line, h1, h2, h3, h4]
  · simp only [daemon_runtime_tick]
    split_ifs with h
    · exact fun _ => ⟨rfl, h.1, h.2⟩
    · exact fun hne => absurd rfl hne

/-- C10 (witness): a rejected `RUN NOPE` leaves the state 0 unchanged, an
accepted `RUN MECANUM F` at t=5 sets it to 5, and the tick at t=1301 from
state 100 fires the watchdog. -/
theorem c10_state_only_on_acceptance_witness :
    (daemon_runtime_handle_line envNone (some "RUN NOPE") 5 0).2 = 0 ∧
    (daemon_runtime_handle_line envNone (some "RUN MECANUM F") 5 0).2 = 5 ∧
    daemon_runtime_tick 100 1301 = (["OK"], 1301) :=
  ⟨(c10_state_only_on_acceptance envNone (some "RUN NOPE") 5 0).1
     ⟨"ERR BAD_TOKEN unknown", by decide, by decide⟩,
   ((c10_state_only_on_acceptance envNone (some "RUN MECANUM F") 5 0).2.1
     (by decide)).1,
   (((c10_state_only_on_acceptance envNone none 1301 100).2.2)
     (by decide)).1⟩

set_option maxRecDepth 4000 in
/-- Rendering the transcribed `FWD` record reproduces the corresponding
verbatim piece of the embedded manifest literal. -/
theorem render_fwd : renderCommand rc_cmd_fwd = rc_manifest_cmd_json0 := by
  decide

set_option maxRecDepth 4000 in
/-- Rendering the transcribed `BWD` record reproduces the corresponding
verbatim piece of the embedded manifest literal. -/
theorem render_bwd : renderCommand rc_cmd_bwd = rc_manifest_cmd_json1 := by
  decide

set_option maxRecDepth 4000 in
/-- Rendering the transcribed `STRAFE` record reproduces the corresponding
verbatim piece of the embedded manifest literal. -/
theorem render_strafe : renderCommand rc_cmd_strafe = rc_manifest_cmd_json2 := by
  decide

set_option maxRecDepth 4000 in
/-- Rendering the transcribed `TURN` record reproduces the corresponding
verbatim piece of the embedded manifest literal. -/
theorem render_turn : renderCommand rc_cmd_turn = rc_manifest_cmd_json3 := by
  decide

set_option maxRecDepth 4000 in
/-- Rendering the transcribed `MECANUM` record reproduces the corresponding
verbatim piece of the embedded manifest literal. -/
theorem render_mecanum : renderCommand rc_cmd_mecanum = rc_manifest_cmd_json4 := by
  decide

set_option maxRecDepth 4000 in
/-- Rendering the transcribed `STOP` record reproduces the corresponding
verbatim piece of the embedded manifest literal. -/
theorem render_stop : renderCommand rc_cmd_stop = rc_manifest_cmd_json5 := by
  decide

/-- C9: the embedded manifest JSON is exactly the rendering of the
transcribed catalog (tying the records to the literal); in it, every
command's `nlp.synonyms` is `[lowercase token, lowercase desc]` and
`nlp.examples` is `[desc]` verbatim; every string-kind argument has
`min = max = null`; and string arguments receive no range check in the
emitted dispatch: `GRIP` (gripworks) and `MECANUM` (rc_car) call straight
through to the user function for every argument string. -/
theorem c9_manifest_projection :
    rc_manifest_json =
      rc_manifest_head ++ renderCommands rc_manifest_commands ++
        rc_manifest_tail ∧
    (∀ c ∈ rc_manifest_commands,
      c.nlp.synonyms = [lowerStr c.token, lowerStr c.description] ∧
      c.nlp.examples = [c.description]) ∧
    (∀ c ∈ rc_manifest_commands, ∀ a ∈ c.args,
      a.type = "string" → a.min = none ∧ a.max = none) ∧
    (∀ env s, daemon_entry_dispatch_gripworks env (some "GRIP") [s] =
      ([Call.set_grip s], DAEMON_OK)) ∧
    (∀ env s, daemon_entry_dispatch_rc_car env (some "MECANUM") [s] =
      ([Call.daemon_cmd_mecanum s], DAEMON_OK)) := by
  refine ⟨?_, ?_, ?_, ?_, ?_⟩
  · apply str_data_eq
    simp only [rc_manifest_json, rc_manifest_commands, renderCommands,
      render_fwd, render_bwd, render_strafe, render_turn, render_mecanum,
      render_stop, str_data_append, List.append_assoc]
  · decide
  · decide
  · intro env s
    simp [daemon_entry_dispatch_gripworks]
  · intro env s
    simp [daemon_entry_dispatch_rc_car]

/-- C9 (witness): the projection at the `STRAFE` command and its string
argument `dir`, and the unchecked `GRIP` dispatch at `close`. -/
theorem c9_manifest_projection_witness :
    rc_cmd_strafe ∈ rc_manifest_commands ∧
    rc_cmd_strafe.nlp.synonyms =
      [lowerStr rc_cmd_strafe.token, lowerStr rc_cmd_strafe.description] ∧
    ({ name := "dir", type := "string", min := none, max := none,
       required := true } : ManifestArg).min = none ∧
    daemon_entry_dispatch_gripworks envNone (some "GRIP") ["close"] =
      ([Call.set_grip "close"], DAEMON_OK) :=
  ⟨by decide,
   (c9_manifest_projection.2.1 rc_cmd_strafe (by decide)).1,
   (c9_manifest_projection.2.2.1 rc_cmd_strafe (by decide)
     { name := "dir", type := "string", min := none, max := none,
       required := true } (by decide) rfl).1,
   c9_manifest_projection.2.2.2.1 envNone "close"⟩
